import Mathlib

/-!
Shallow embedding of the ISA Plug and Play bus emulation core
(src/src/device/isapnp.c) and proofs about its guest-observable behavior.

Modelling conventions:
* C machine integers become `Nat`; wrap-around is written explicitly
  (`% 256` for `uint8_t` where overflow can occur, `% 65536` for `uint16_t`,
  `% 2 ^ 32` for `uint32_t`, `% 32` for the 5-bit `key_pos` bitfield).
* Linked lists of cards and logical devices become Lean `List`s; the C
  pointers `isolated_card`, `current_ld` / `current_ld_card` become indices
  into those lists (`Option Nat`, `Option (Nat × Nat)`).
* Callback function pointers are modelled by presence flags; an invocation
  of an external callback is recorded as an emitted `isapnp_event`, in
  invocation order.  The vendor-register read callback must produce a byte,
  so it is kept as an optional Lean function.
* The per-device register file (`uint8_t regs[256]`) is a total function
  `Nat → Nat`; the operations only ever store byte values.
-/

namespace ISAPnP

/-- Replace the element at index `i` of a list by `f` applied to it; the
list is unchanged when `i` is out of range.  This models an in-place
mutation through a pointer to the i-th node of a C linked list. -/
def listModify {α : Type} : List α → Nat → (α → α) → List α
  | [], _, _ => []
  | x :: xs, 0, f => f x :: xs
  | x :: xs, n + 1, f => x :: listModify xs n f

/-- Card lifecycle states, with the numeric values of the C enum. -/
def PNP_STATE_WAIT_FOR_KEY : Nat := 0

/-- CONFIG state of the C enum. -/
def PNP_STATE_CONFIG : Nat := 1

/-- ISOLATION state of the C enum. -/
def PNP_STATE_ISOLATION : Nat := 2

/-- SLEEP state of the C enum. -/
def PNP_STATE_SLEEP : Nat := 3

/-- Modelled from the spec: the DMA registers are reset to a sentinel
"disabled" value (`ISAPNP_DMA_DISABLED` lives in the repository header
86box/isapnp.h, which is not under src/; its concrete value is irrelevant
to every claim below). -/
def ISAPNP_DMA_DISABLED : Nat := 4

/-- The fixed 32-byte initiation ("LFSR") key sequence `pnp_init_key`. -/
def pnp_init_key : List Nat :=
  [0x6A, 0xB5, 0xDA, 0xED, 0xF6, 0xFB, 0x7D, 0xBE,
   0xDF, 0x6F, 0x37, 0x1B, 0x0D, 0x86, 0xC3, 0x61,
   0xB0, 0x58, 0x2C, 0x16, 0x8B, 0x45, 0xA2, 0xD1,
   0xE8, 0x74, 0x3A, 0x9D, 0xCE, 0xE7, 0x73, 0x39]

/-- One logical device (`isapnp_device_t`): device number, 256-byte
register file and the parser-derived upper-limit mask. -/
structure isapnp_device_t where
  number : Nat
  regs : Nat → Nat
  upperlimit : Nat

/-- One PnP card (`isapnp_card_t`).  The callback function pointers
`config_changed`, `csn_changed` and `write_vendor_reg` are modelled by
presence flags (their invocations are recorded as events); the
`read_vendor_reg` callback must produce the returned byte, so it is kept
as an optional function of (logical device number, register index). -/
structure isapnp_card_t where
  state : Nat
  csn : Nat
  id_checksum : Nat
  serial_read : Nat
  serial_read_pair : Bool
  serial_read_pos : Nat
  rom : List Nat
  rom_pos : Nat
  rom_size : Nat
  config_changed : Bool
  csn_changed : Bool
  read_vendor_reg : Option (Nat → Nat → Nat)
  write_vendor_reg : Bool
  first_ld : List isapnp_device_t

/-- The controller (`isapnp_t`): current register index, 5-bit key-match
cursor, relocatable read-data port address, the owned card list, and the
two weak references (isolation engine active card; currently addressed
card / logical device pair). -/
structure isapnp_t where
  reg : Nat
  key_pos : Nat
  read_data_addr : Nat
  first_card : List isapnp_card_t
  isolated_card : Option Nat
  current_ld : Option (Nat × Nat)

/-- One translated memory window of the configuration record (fields are
`uint32_t` in the repository header 86box/isapnp.h, outside src/). -/
structure isapnp_mem_t where
  base : Nat
  size : Nat
deriving DecidableEq

/-- One translated IRQ assignment of the configuration record. -/
structure isapnp_irq_t where
  irq : Nat
  level : Nat
  type : Nat
deriving DecidableEq

/-- The normalized configuration record (`isapnp_device_config_t`)
handed to the configuration-changed callback. -/
structure isapnp_device_config_t where
  activate : Nat
  mem : List isapnp_mem_t
  mem32 : List isapnp_mem_t
  io : List Nat
  irq : List isapnp_irq_t
  dma : List Nat
deriving DecidableEq

/-- Observable external effects of an operation, in invocation order:
callback invocations, I/O-port handler (un)registrations, and the fatal
abort of `fatal(...)`. -/
inductive isapnp_event where
  | config_changed (ld : Nat) (config : isapnp_device_config_t)
  | csn_changed (csn : Nat)
  | vendor_write (ld : Nat) (reg : Nat) (val : Nat)
  | io_set (addr : Nat)
  | io_remove (addr : Nat)
  | fatal_error
deriving DecidableEq

/-- Register-file to configuration-record translation: the body of
`isapnp_device_config_changed` that populates `card->config` from the
logical device registers, with the wire (big-endian) byte order resolved
and the upper-limit encoding converted to a length by 32-bit subtraction. -/
def isapnp_config (regs : Nat → Nat) : isapnp_device_config_t :=
  { activate := regs 0x30 &&& 0x01
    mem := (List.range 4).map (fun i =>
      let reg_base := 0x40 + 8 * i
      let base := (regs reg_base <<< 16) ||| (regs (reg_base + 1) <<< 8)
      let size := (regs (reg_base + 3) <<< 16) ||| (regs (reg_base + 4) <<< 8)
      { base := base
        size := if regs (reg_base + 2) &&& 0x01 ≠ 0 then
                  (size + 2 ^ 32 - base) % 2 ^ 32
                else size })
    mem32 := (List.range 4).map (fun i =>
      let reg_base := if i = 0 then 0x76 else 0x80 + 16 * i
      let base := (regs reg_base <<< 24) ||| (regs (reg_base + 1) <<< 16) |||
                  (regs (reg_base + 2) <<< 8) ||| regs (reg_base + 3)
      let size := (regs (reg_base + 5) <<< 24) ||| (regs (reg_base + 6) <<< 16) |||
                  (regs (reg_base + 7) <<< 8) ||| regs (reg_base + 8)
      { base := base
        size := if regs (reg_base + 4) &&& 0x01 ≠ 0 then
                  (size + 2 ^ 32 - base) % 2 ^ 32
                else size })
    io := (List.range 8).map (fun i =>
      (regs (0x60 + 2 * i) <<< 8) ||| regs (0x60 + 2 * i + 1))
    irq := (List.range 2).map (fun i =>
      { irq := regs (0x70 + 2 * i)
        level := regs (0x70 + 2 * i + 1) &&& 0x02
        type := regs (0x70 + 2 * i + 1) &&& 0x01 })
    dma := (List.range 2).map (fun i => regs (0x74 + i)) }

/-- The events emitted by `isapnp_device_config_changed`: nothing when the
card has not signed up for configuration changes, otherwise one
configuration-changed callback invocation carrying the freshly translated
record. -/
def isapnp_device_config_changed (card : isapnp_card_t) (ld : isapnp_device_t) :
    List isapnp_event :=
  if card.config_changed then
    [isapnp_event.config_changed ld.number (isapnp_config ld.regs)]
  else []

/-- Register reset (`isapnp_reset_ld_regs`): zero all registers, set the
two DMA registers to the disabled sentinel, then set the low bit of each
memory-range length / flag register from the parser-derived upper-limit
mask. -/
def isapnp_reset_ld_regs (ld : isapnp_device_t) : isapnp_device_t :=
  let regs : Nat → Nat := fun _ => 0
  let regs := Function.update regs 0x74 ISAPNP_DMA_DISABLED
  let regs := Function.update regs 0x75 ISAPNP_DMA_DISABLED
  let setUL : (Nat → Nat) → Nat → Nat → Nat → Nat := fun regs r bit =>
    Function.update regs r
      (regs r ||| (if ld.upperlimit &&& (1 <<< bit) ≠ 0 then 1 else 0))
  let regs := setUL regs 0x42 0
  let regs := setUL regs 0x4a 1
  let regs := setUL regs 0x52 2
  let regs := setUL regs 0x5a 3
  let regs := setUL regs 0x7a 4
  let regs := setUL regs 0x94 5
  let regs := setUL regs 0xa4 6
  let regs := setUL regs 0xb4 7
  { ld with regs := regs }

/-- One serial-isolation access to the card being isolated: the body of
the `case 0x01` branch of `isapnp_read_data` operating on the found card.
The returned byte is the updated `serial_read` field. -/
def isapnp_serial_step (card : isapnp_card_t) : isapnp_card_t :=
  let card :=
    if card.serial_read_pair then
      -- second byte of the pair (aa/00): shift the previous value
      let card := { card with serial_read := (card.serial_read <<< 1) % 256 }
      if card.serial_read_pos = 0 then { card with rom_pos := 0x09 } else card
    else
      if card.serial_read_pos < 64 then
        -- reading the 64-bit vendor/serial identifier, advancing the LFSR checksum
        let bit := (card.rom.getD (card.serial_read_pos >>> 3) 0 >>>
                    (card.serial_read_pos &&& 0x7)) &&& 0x01
        let next_shift := ((if card.id_checksum &&& 0x02 = 0 then 0 else 1) ^^^
                           (if card.id_checksum &&& 0x01 = 0 then 0 else 1) ^^^ bit) &&& 0x01
        { card with
          id_checksum := (card.id_checksum >>> 1) ||| (next_shift <<< 7)
          serial_read := if bit ≠ 0 then 0x55 else 0x00
          serial_read_pos := (card.serial_read_pos + 1) % 72 }
      else
        -- reading the 8-bit checksum; populate it into the ROM at position 64
        let card :=
          if card.serial_read_pos = 64 then
            { card with rom := card.rom.set 0x08 card.id_checksum }
          else card
        let bit := (card.id_checksum >>> (card.serial_read_pos &&& 0x7)) &&& 0x01
        { card with
          serial_read := if bit ≠ 0 then 0x55 else 0x00
          serial_read_pos := (card.serial_read_pos + 1) % 72 }
  { card with serial_read_pair := !card.serial_read_pair }

/-- The index of the first card in CONFIG state (`CHECK_CURRENT_CARD`). -/
def findConfigCard (dev : isapnp_t) : Option Nat :=
  dev.first_card.findIdx? (fun c => c.state == PNP_STATE_CONFIG)

/-- Read from the relocatable read-data port (`isapnp_read_data`):
returns the byte read and the successor controller state. -/
def isapnp_read_data (dev : isapnp_t) : Nat × isapnp_t :=
  if dev.reg = 0x01 then -- Serial Isolation
    match dev.first_card.findIdx? (fun c => c.state == PNP_STATE_ISOLATION) with
    | none => (0xff, { dev with isolated_card := none })
    | some ci =>
      match dev.first_card.get? ci with
      | none => (0xff, { dev with isolated_card := none })
      | some card =>
        let card := isapnp_serial_step card
        (card.serial_read,
         { dev with isolated_card := some ci
                    first_card := listModify dev.first_card ci (fun _ => card) })
  else if dev.reg = 0x04 then -- Resource Data
    match findConfigCard dev with
    | none => (0xff, dev)
    | some ci =>
      match dev.first_card.get? ci with
      | none => (0xff, dev)
      | some card =>
        if card.rom_pos ≥ card.rom_size then (0xff, dev)
        else (card.rom.getD card.rom_pos 0,
              { dev with first_card :=
                  (listModify dev.first_card ci (fun c =>
                    { c with rom_pos := (c.rom_pos + 1) % 65536 })) })
  else if dev.reg = 0x05 then -- Status
    match findConfigCard dev with
    | none => (0x00, dev)
    | some _ => (0x01, dev)
  else if dev.reg = 0x06 then -- Card Select Number
    match findConfigCard dev with
    | none => (0x00, dev)
    | some ci =>
      match dev.first_card.get? ci with
      | none => (0x00, dev)
      | some card => (card.csn, dev)
  else if dev.reg = 0x07 then -- Logical Device Number
    match dev.current_ld with
    | none => (0x00, dev)
    | some (ci, li) =>
      match dev.first_card.get? ci with
      | none => (0x00, dev)
      | some card =>
        match card.first_ld.get? li with
        | none => (0x00, dev)
        | some ld => (ld.number, dev)
  else if 0x20 ≤ dev.reg ∧ dev.reg ≤ 0x2f then -- card-level vendor-defined
    match findConfigCard dev with
    | none => (0xff, dev)
    | some ci =>
      match dev.first_card.get? ci with
      | none => (0xff, dev)
      | some card =>
        match card.read_vendor_reg with
        | some f => (f 0 dev.reg, dev)
        | none => (0xff, dev)
  else if (0x38 ≤ dev.reg ∧ dev.reg ≤ 0x3f) ∨ (0xf0 ≤ dev.reg ∧ dev.reg ≤ 0xfe) then
    match dev.current_ld with -- device-level vendor-defined
    | none => (0xff, dev)
    | some (ci, li) =>
      match dev.first_card.get? ci with
      | none => (0xff, dev)
      | some card =>
        match card.first_ld.get? li with
        | none => (0xff, dev)
        | some ld =>
          match card.read_vendor_reg with
          | some f => (f ld.number dev.reg, dev)
          | none => (0xff, dev)
  else if 0x30 ≤ dev.reg then -- plain logical device register
    match dev.current_ld with
    | none => (0xff, dev)
    | some (ci, li) =>
      match dev.first_card.get? ci with
      | none => (0xff, dev)
      | some card =>
        match card.first_ld.get? li with
        | none => (0xff, dev)
        | some ld => (ld.regs dev.reg, dev)
  else (0xff, dev)

/-- Write to the address/key port (`isapnp_write_addr`): feeds the
key matcher while the first card is waiting for the key, otherwise sets
the active register index. -/
def isapnp_write_addr (dev : isapnp_t) (val : Nat) : isapnp_t :=
  let val := val % 256
  match dev.first_card with
  | [] => dev -- no PnP cards, do nothing
  | card :: _ =>
    if card.state = PNP_STATE_WAIT_FOR_KEY then
      -- checking only the first card, as the source does
      if val = pnp_init_key.getD dev.key_pos 0 then
        let key_pos := (dev.key_pos + 1) % 32 -- 5-bit bitfield increment
        if key_pos = 0 then
          { dev with
            key_pos := 0
            first_card := dev.first_card.map (fun c =>
              if c.state = PNP_STATE_WAIT_FOR_KEY then
                { c with state := PNP_STATE_SLEEP }
              else c) }
        else { dev with key_pos := key_pos }
      else { dev with key_pos := 0 }
    else
      { dev with reg := val }

/-- Relocation of the read-data port (`isapnp_set_read_data`): remove the
existing handler, then install the new one when the address falls inside
the valid window. -/
def isapnp_set_read_data (addr : Nat) (dev : isapnp_t) :
    isapnp_t × List isapnp_event :=
  let r1 : isapnp_t × List isapnp_event :=
    if dev.read_data_addr ≠ 0 then
      ({ dev with read_data_addr := 0 }, [isapnp_event.io_remove dev.read_data_addr])
    else (dev, [])
  if 0x203 ≤ addr ∧ addr ≤ 0x3ff then
    ({ r1.1 with read_data_addr := addr }, r1.2 ++ [isapnp_event.io_set addr])
  else r1

/-- Apply a mutation to the logical device at indices `(ci, li)`. -/
def modifyLd (dev : isapnp_t) (ci li : Nat) (f : isapnp_device_t → isapnp_device_t) :
    isapnp_t :=
  { dev with first_card :=
      (listModify dev.first_card ci (fun c =>
        { c with first_ld := listModify c.first_ld li f })) }

/-- Config Control command (`case 0x02` of `isapnp_write_data`): bit 0 is
the full reset, bit 1 returns every card to WAIT_FOR_KEY, bit 2 clears
every CSN; the bits are applied in that order. -/
def isapnp_write_cc (dev : isapnp_t) (val : Nat) : isapnp_t × List isapnp_event :=
  let r1 : isapnp_t × List isapnp_event :=
    if val &&& 0x01 ≠ 0 then
      let r0 := isapnp_set_read_data 0 dev
      let cards := r0.1.first_card.map (fun c =>
        { c with first_ld := c.first_ld.map isapnp_reset_ld_regs })
      ({ r0.1 with first_card := cards
                   current_ld := none
                   isolated_card := none },
       r0.2 ++ cards.flatMap (fun c =>
         c.first_ld.flatMap (fun ld => isapnp_device_config_changed c ld)))
    else (dev, [])
  let dev2 :=
    if val &&& 0x02 ≠ 0 then
      { r1.1 with first_card :=
          (r1.1.first_card.map (fun c => { c with state := PNP_STATE_WAIT_FOR_KEY })) }
    else r1.1
  if val &&& 0x04 ≠ 0 then
    ({ dev2 with first_card := dev2.first_card.map (fun c => { c with csn := 0 }) },
     r1.2 ++ dev2.first_card.flatMap (fun c =>
       if c.csn_changed then [isapnp_event.csn_changed 0] else []))
  else (dev2, r1.2)

/-- Wake[CSN] command (`case 0x03` of `isapnp_write_data`). -/
def isapnp_write_wake (dev : isapnp_t) (val : Nat) : isapnp_t :=
  { dev with first_card :=
      (dev.first_card.map (fun c =>
        if c.csn = val then
          let c := { c with rom_pos := 0, id_checksum := pnp_init_key.getD 0 0 }
          if c.state = PNP_STATE_SLEEP then
            { c with state :=
                (if val = 0 then PNP_STATE_ISOLATION else PNP_STATE_CONFIG) }
          else c
        else { c with state := PNP_STATE_SLEEP })) }

/-- Write to the write-data port (`isapnp_write_data`): either a bus
command or a register write on the addressed logical device, returning
the successor state and the emitted events. -/
def isapnp_write_data (dev : isapnp_t) (val : Nat) : isapnp_t × List isapnp_event :=
  let val := val % 256
  if dev.reg = 0x00 then -- Set RD_DATA Port
    isapnp_set_read_data ((val <<< 2) ||| 3) dev
  else if dev.reg = 0x02 then -- Config Control
    isapnp_write_cc dev val
  else if dev.reg = 0x03 then -- Wake[CSN]
    (isapnp_write_wake dev val, [])
  else if dev.reg = 0x06 then -- Card Select Number
    match dev.isolated_card with
    | none => (dev, []) -- no card is isolated: logged no-op
    | some ci =>
      match dev.first_card.get? ci with
      | none => ({ dev with isolated_card := none }, [])
      | some card =>
        ({ dev with
             isolated_card := none
             first_card :=
               (listModify dev.first_card ci (fun c =>
                 { c with csn := val, state := PNP_STATE_CONFIG })) },
         if card.csn_changed then [isapnp_event.csn_changed val] else [])
  else if dev.reg = 0x07 then -- Logical Device Number
    match findConfigCard dev with
    | none => (dev, []) -- no card in CONFIG state: logged no-op
    | some ci =>
      match dev.first_card.get? ci with
      | none => (dev, [])
      | some card =>
        match card.first_ld.findIdx? (fun l => l.number == val) with
        | some li => ({ dev with current_ld := some (ci, li) }, [])
        | none => (dev, [isapnp_event.fatal_error])
  else if dev.reg = 0x30 then -- Activate
    match dev.current_ld with
    | none => (dev, []) -- no logical device selected: logged no-op
    | some (ci, li) =>
      match dev.first_card.get? ci with
      | none => (dev, [])
      | some card =>
        match card.first_ld.get? li with
        | none => (dev, [])
        | some ld =>
          let ld := { ld with regs := Function.update ld.regs 0x30 (val &&& 0x01) }
          (modifyLd dev ci li (fun _ => ld), isapnp_device_config_changed card ld)
  else if dev.reg = 0x31 then -- I/O Range Check
    match dev.current_ld with
    | none => (dev, [])
    | some (ci, li) =>
      match dev.first_card.get? ci with
      | none => (dev, [])
      | some card =>
        match card.first_ld.get? li with
        | none => (dev, [])
        | some ld =>
          let evs := (List.range 8).flatMap (fun k =>
            let io_addr := (ld.regs (0x60 + 2 * k) <<< 8) ||| ld.regs (0x60 + 2 * k + 1)
            (if ld.regs 0x31 &&& 0x02 ≠ 0 then [isapnp_event.io_remove io_addr] else []) ++
            (if val &&& 0x02 ≠ 0 then [isapnp_event.io_set io_addr] else []))
          (modifyLd dev ci li (fun l =>
             { l with regs := Function.update l.regs 0x31 (val &&& 0x03) }), evs)
  else if 0x20 ≤ dev.reg ∧ dev.reg ≤ 0x2f then -- card-level vendor-defined
    match findConfigCard dev with
    | none => (dev, [])
    | some ci =>
      match dev.first_card.get? ci with
      | none => (dev, [])
      | some card =>
        (dev, if card.write_vendor_reg then
                [isapnp_event.vendor_write 0 dev.reg val]
              else [])
  else if (0x38 ≤ dev.reg ∧ dev.reg ≤ 0x3f) ∨ (0xf0 ≤ dev.reg ∧ dev.reg ≤ 0xfe) then
    match dev.current_ld with -- device-level vendor-defined
    | none => (dev, [])
    | some (ci, li) =>
      match dev.first_card.get? ci with
      | none => (dev, [])
      | some card =>
        match card.first_ld.get? li with
        | none => (dev, [])
        | some ld =>
          (dev, if card.write_vendor_reg then
                  [isapnp_event.vendor_write ld.number dev.reg val]
                else [])
  else if 0x40 ≤ dev.reg then -- plain configuration register write
    match dev.current_ld with
    | none => (dev, [])
    | some (ci, li) =>
      match dev.first_card.get? ci with
      | none => (dev, [])
      | some card =>
        match card.first_ld.get? li with
        | none => (dev, [])
        | some ld =>
          let val :=
            if dev.reg = 0x42 ∨ dev.reg = 0x4a ∨ dev.reg = 0x52 ∨ dev.reg = 0x5a ∨
               dev.reg = 0x7a ∨ dev.reg = 0x84 ∨ dev.reg = 0x94 ∨ dev.reg = 0xa4 then
              -- read-only memory range length / upper limit bit
              (val &&& 0xfe) ||| (ld.regs dev.reg &&& 0x01)
            else val
          let ld := { ld with regs := Function.update ld.regs dev.reg val }
          (modifyLd dev ci li (fun _ => ld), isapnp_device_config_changed card ld)
  else (dev, [])

/-- Finalization of the trailing ROM checksum byte performed by
`isapnp_add_card` before parsing: the byte at offset `rom_size - 1`
becomes the two/s-complement (byte arithmetic) of the sum of the bytes
from offset 9 up to, and excluding, that offset. -/
def isapnp_rom_checksum (rom : List Nat) : List Nat :=
  let checksum_offset := rom.length - 1
  let acc := (List.range' 9 (checksum_offset - 9)).foldl
    (fun a i => (a + rom.getD i 0) % 256) 0
  rom.set checksum_offset ((256 - acc) % 256)

/-- State of the resource-descriptor parsing loop of `isapnp_add_card`:
cursor, next device number, dependent-function flag, the four slot
counters, the finished logical devices and the device being built. -/
structure parse_state where
  i : Nat
  ldn : Nat
  in_df : Bool
  mem_range : Nat
  mem_range_32 : Nat
  mem_range_df : Nat
  mem_range_32_df : Nat
  finished_lds : List isapnp_device_t
  cur_ld : Option isapnp_device_t
  fatal : Bool

/-- Record the upper-limit flag bit of a memory descriptor into the
current logical device (flag byte is the first payload byte, bit 2). -/
def parseApplyUpper (rom : List Nat) (s : parse_state) (mask : Nat) : parse_state :=
  if rom.getD (s.i + 3) 0 &&& 0x4 ≠ 0 then
    { s with cur_ld := s.cur_ld.map (fun ld =>
        { ld with upperlimit := ld.upperlimit ||| mask }) }
  else
    { s with cur_ld := s.cur_ld.map (fun ld =>
        { ld with upperlimit := ld.upperlimit &&& (0xff ^^^ mask) }) }

/-- One iteration of the descriptor parsing loop of `isapnp_add_card`,
processing the item at cursor `s.i`. -/
def parseStep (rom : List Nat) (s : parse_state) : parse_state :=
  if s.fatal then s else -- fatal() never returns, so a fatal state is absorbing
  let b := rom.getD s.i 0
  if b &&& 0x80 ≠ 0 then -- large resource
    let res := b &&& 0x7f
    let len := (rom.getD (s.i + 2) 0 <<< 8) ||| rom.getD (s.i + 1) 0
    let s :=
      if res = 0x01 then -- memory range
        if s.mem_range > 3 then { s with fatal := true }
        else
          let mask := 1 <<< s.mem_range
          let s := { s with mem_range := s.mem_range + 1 }
          let s := if s.in_df then s else { s with mem_range_df := s.mem_range_df + 1 }
          parseApplyUpper rom s mask
      else if res = 0x05 then -- 32-bit memory range
        if s.mem_range_32 > 3 then { s with fatal := true }
        else
          let mask := 1 <<< (4 + s.mem_range_32)
          let s := { s with mem_range_32 := s.mem_range_32 + 1 }
          let s := if s.in_df then s else { s with mem_range_32_df := s.mem_range_32_df + 1 }
          parseApplyUpper rom s mask
      else s -- other large resources are skipped by length
    if s.fatal then s else { s with i := s.i + 3 + len }
  else -- small resource
    let res := (b >>> 3) &&& 0x0f
    let len := b &&& 0x07
    let s :=
      if res = 0x02 then -- logical device
        let s :=
          match s.cur_ld with
          | some ld => { s with finished_lds := s.finished_lds ++ [isapnp_reset_ld_regs ld] }
          | none => s
        { s with
          cur_ld := some { number := s.ldn, regs := fun _ => 0, upperlimit := 0 }
          ldn := (s.ldn + 1) % 256
          mem_range := 0
          mem_range_32 := 0
          mem_range_df := 0
          mem_range_32_df := 0 }
      else if res = 0x06 then -- start dependent functions
        if s.in_df then
          -- next alternative: walk the positions back to the saved values
          { s with mem_range := s.mem_range_df, mem_range_32 := s.mem_range_32_df }
        else
          -- first alternative: save current positions for the next DF
          { s with
            mem_range_df := s.mem_range
            mem_range_32_df := s.mem_range_32
            in_df := true }
      else if res = 0x07 then -- end dependent functions
        { s with in_df := false }
      else s -- other small resources are skipped by length
    { s with i := s.i + 1 + len }

/-! Concrete fixture states used by the witness and counterexample
theorems below. -/

/-- All-zero register file. -/
def regs0 : Nat → Nat := fun _ => 0

/-- A bare logical device. -/
def ld0 : isapnp_device_t := { number := 0, regs := regs0, upperlimit := 0 }

/-- A bare card with no callbacks registered. -/
def card0 : isapnp_card_t :=
  { state := PNP_STATE_SLEEP, csn := 0, id_checksum := 0, serial_read := 0,
    serial_read_pair := false, serial_read_pos := 0, rom := [], rom_pos := 0,
    rom_size := 0, config_changed := false, csn_changed := false,
    read_vendor_reg := none, write_vendor_reg := false, first_ld := [] }

/-- A bare controller with no cards. -/
def dev0 : isapnp_t :=
  { reg := 0, key_pos := 0, read_data_addr := 0, first_card := [],
    isolated_card := none, current_ld := none }

/-- Card under serial isolation, just woken (checksum seeded, position 0),
with a 12-byte ROM whose identifier starts with 0xAB. -/
def fix1_card : isapnp_card_t :=
  { card0 with state := PNP_STATE_ISOLATION, id_checksum := 0x6A,
               rom := [0xAB, 1, 2, 3, 4, 5, 6, 0x80, 0, 0x15, 9, 0xFF],
               rom_size := 12 }

/-- Controller serving a serial-isolation read for `fix1_card`. -/
def fix1_dev : isapnp_t := { dev0 with reg := 0x01, first_card := [fix1_card] }

/-- Card in CONFIG state with one logical device and a registered
configuration-changed callback. -/
def fix2_card : isapnp_card_t :=
  { card0 with state := PNP_STATE_CONFIG, csn := 1, config_changed := true,
               csn_changed := true, first_ld := [ld0] }

/-- Controller addressing `fix2_card` device 0, with register index `r`. -/
def fix2_dev (r : Nat) : isapnp_t :=
  { dev0 with reg := r, first_card := [fix2_card], current_ld := some (0, 0) }

/-- Controller whose first card is asleep while the second still waits
for the key. -/
def fix3_dev : isapnp_t :=
  { dev0 with key_pos := 3,
              first_card := [card0, { card0 with state := PNP_STATE_WAIT_FOR_KEY }] }

/-- Controller with one card waiting for the key. -/
def fix3_wdev : isapnp_t :=
  { dev0 with first_card := [{ card0 with state := PNP_STATE_WAIT_FOR_KEY }] }

/-- Descriptor stream: logical device, start-DF, a memory range with the
upper-limit flag, a second start-DF, a memory range without it, end-DF. -/
def fix4_rom : List Nat :=
  [0x15, 1, 2, 3, 4, 5,
   0x30,
   0x81, 9, 0, 0x04, 0, 0, 0, 0, 0, 0, 0, 0,
   0x30,
   0x81, 9, 0, 0x00, 0, 0, 0, 0, 0, 0, 0, 0,
   0x38]

/-- Parse state sitting at the first start-DF item of `fix4_rom`
(cursor 6), after one memory slot was already consumed. -/
def fix4_state : parse_state :=
  { i := 6, ldn := 1, in_df := false, mem_range := 1, mem_range_32 := 0,
    mem_range_df := 1, mem_range_32_df := 0, finished_lds := [],
    cur_ld := some ld0, fatal := false }

/-- Logical device whose first memory range uses upper-limit encoding,
with freshly reset registers. -/
def fix5_ld : isapnp_device_t := isapnp_reset_ld_regs { ld0 with upperlimit := 1 }

/-- Controller for the upper-limit write scenario: CONFIG card addressing
`fix5_ld`. -/
def fix5_dev : isapnp_t :=
  { dev0 with first_card := [{ fix2_card with first_ld := [fix5_ld] }],
              current_ld := some (0, 0) }

/-- The scenario of claim C5 driven through the bus ports: select
register 0x41, write 0x10, select register 0x44 (the written data byte
is the final step of the scenario). -/
def fix5_dev3 : isapnp_t :=
  isapnp_write_addr ((isapnp_write_data (isapnp_write_addr fix5_dev 0x41) 0x10).1) 0x44

/-- The configuration record expected from the C5 scenario. -/
def fix5_expected : isapnp_device_config_t :=
  { activate := 0
    mem := [{ base := 0x1000, size := 0x1000 }, { base := 0, size := 0 },
            { base := 0, size := 0 }, { base := 0, size := 0 }]
    mem32 := [{ base := 0, size := 0 }, { base := 0, size := 0 },
              { base := 0, size := 0 }, { base := 0, size := 0 }]
    io := [0, 0, 0, 0, 0, 0, 0, 0]
    irq := [{ irq := 0, level := 0, type := 0 }, { irq := 0, level := 0, type := 0 }]
    dma := [ISAPNP_DMA_DISABLED, ISAPNP_DMA_DISABLED] }

/-- Register file with every byte equal to 1, exercising every
upper-limit flag. -/
def ones_regs : Nat → Nat := fun _ => 1

/-- A 13-byte ROM for the checksum witness. -/
def fix6_rom : List Nat := [7, 7, 7, 7, 7, 7, 7, 7, 7, 10, 20, 30, 99]

/-- Controller about to receive a Config-Control command while the key
cursor sits mid-sequence. -/
def fix7_dev : isapnp_t :=
  { dev0 with reg := 0x02, key_pos := 5,
              first_card := [{ card0 with state := PNP_STATE_WAIT_FOR_KEY }] }

/-- Controller with an isolation-selected card that registered a
CSN-changed callback. -/
def fix9_card : isapnp_card_t :=
  { card0 with state := PNP_STATE_ISOLATION, csn_changed := true }

/-- Controller about to execute Set-CSN with `fix9_card` selected. -/
def fix9_dev : isapnp_t :=
  { dev0 with reg := 0x06, first_card := [fix9_card], isolated_card := some 0 }

/-- CONFIG card with a 3-byte ROM, read cursor at 1. -/
def fix10_card : isapnp_card_t :=
  { card0 with state := PNP_STATE_CONFIG, rom := [0xAA, 0xBB, 0xCC],
               rom_pos := 1, rom_size := 3 }

/-- Controller reading resource data from `fix10_card`. -/
def fix10_dev : isapnp_t := { dev0 with reg := 0x04, first_card := [fix10_card] }

/-- The logical device reached through card index `ci` and device index
`li`, the model of dereferencing the C `current_ld` pointer. -/
def ldAt (dev : isapnp_t) (ci li : Nat) : Option isapnp_device_t :=
  (dev.first_card.get? ci).bind (fun c => c.first_ld.get? li)

/-! Helper lemmas shared by the claim proofs. -/

theorem listModify_get_self {α : Type} (l : List α) (i : Nat) (f : α → α) :
    (listModify l i f).get? i = (l.get? i).map f := by
  induction l generalizing i with
  | nil => simp [listModify]
  | cons x xs ih =>
    cases i with
    | zero => simp [listModify]
    | succ n => simpa [listModify] using ih n

theorem listModify_get_ne {α : Type} (l : List α) (i j : Nat) (f : α → α)
    (h : j ≠ i) : (listModify l i f).get? j = l.get? j := by
  induction l generalizing i j with
  | nil => simp [listModify]
  | cons x xs ih =>
    cases i with
    | zero =>
      cases j with
      | zero => exact absurd rfl h
      | succ m => simp [listModify]
    | succ n =>
      cases j with
      | zero => simp [listModify]
      | succ m => simpa [listModify] using ih n m (fun hc => h (by omega))

theorem nat_or_and (x y z : Nat) : (x ||| y) &&& z = (x &&& z) ||| (y &&& z) := by
  apply Nat.eq_of_testBit_eq
  intro i
  simp [Nat.testBit_or, Nat.testBit_and, Bool.and_or_distrib_right]

theorem splice_keeps_low_bit (v w : Nat) :
    ((v &&& 0xfe) ||| (w &&& 1)) &&& 1 = w &&& 1 := by
  rw [nat_or_and, Nat.and_assoc, Nat.and_assoc]
  norm_num

theorem and_one_ite (cs : Nat) : (if cs &&& 0x01 = 0 then (0 : Nat) else 1) = cs &&& 1 := by
  have h := Nat.and_one_is_mod cs
  rcases Nat.mod_two_eq_zero_or_one cs with h2 | h2 <;> simp [h, h2]

theorem and_two_ite (cs : Nat) :
    (if cs &&& 0x02 = 0 then (0 : Nat) else 1) = (cs >>> 1) &&& 1 := by
  have h1 : cs >>> 1 = cs / 2 := by simpa using Nat.shiftRight_eq_div_pow cs 1
  have h3 : cs &&& 2 = (cs.testBit 1).toNat * 2 := by simpa using Nat.and_two_pow cs 1
  have h4 : cs.testBit 1 = decide (cs / 2 % 2 = 1) :=
    Nat.testBit_to_div_mod.trans (by norm_num)
  have h5 : (cs / 2) &&& 1 = cs / 2 % 2 := Nat.and_one_is_mod _
  rw [h1, h5, h3, h4]
  rcases Nat.mod_two_eq_zero_or_one (cs / 2) with h6 | h6 <;> simp [h6]

theorem foldl_mod_add (g : Nat → Nat) :
    ∀ (l : List Nat) (a : Nat),
      l.foldl (fun acc i => (acc + g i) % 256) (a % 256) = (a + (l.map g).sum) % 256 := by
  intro l
  induction l with
  | nil => intro a; simp
  | cons x xs ih =>
    intro a
    have h1 : (a % 256 + g x) % 256 = (a + g x) % 256 := by omega
    calc ((x :: xs).foldl (fun acc i => (acc + g i) % 256) (a % 256))
        = xs.foldl (fun acc i => (acc + g i) % 256) ((a + g x) % 256) := by
          simp [List.foldl, h1]
      _ = (a + g x + (xs.map g).sum) % 256 := ih (a + g x)
      _ = (a + ((x :: xs).map g).sum) % 256 := by simp [List.sum_cons]; ring_nf

/-- C6: attaching a card with a ROM of length n ≥ 10 sets the trailing
ROM byte at offset n-1 to the complement, modulo 256, of the sum of
the ROM bytes at offsets 9 through n-2, and leaves every other byte
unchanged. -/
theorem rom_trailing_checksum (rom : List Nat) (h : 10 ≤ rom.length) :
    (isapnp_rom_checksum rom).length = rom.length ∧
    (isapnp_rom_checksum rom).getD (rom.length - 1) 0 =
      (256 - (((List.range' 9 (rom.length - 10)).map (fun i => rom.getD i 0)).sum % 256)) % 256 ∧
    ∀ j, j ≠ rom.length - 1 → (isapnp_rom_checksum rom).getD j 0 = rom.getD j 0 := by
  have hacc : (List.range' 9 (rom.length - 1 - 9)).foldl
      (fun a i => (a + rom.getD i 0) % 256) 0 =
      (((List.range' 9 (rom.length - 10)).map (fun i => rom.getD i 0)).sum) % 256 := by
    have h0 : (0 : Nat) = 0 % 256 := rfl
    have h9 : rom.length - 1 - 9 = rom.length - 10 := by omega
    rw [h9, h0, foldl_mod_add (fun i => rom.getD i 0) (List.range' 9 (rom.length - 10)) 0]
    simp
  refine ⟨?_, ?_, ?_⟩
  · simp [isapnp_rom_checksum]
  · rw [isapnp_rom_checksum]
    simp only [List.getD_eq_getElem?_getD] at hacc ⊢
    rw [List.getElem?_set_eq (by omega)]
    simp [hacc]
  · intro j hj
    rw [isapnp_rom_checksum]
    simp only [List.getD_eq_getElem?_getD]
    rw [List.getElem?_set_ne (fun hc => hj hc.symm)]

/-- Witness for C6 at the concrete 13-byte ROM `fix6_rom`. -/
theorem rom_trailing_checksum_witness :
    10 ≤ fix6_rom.length ∧
    (isapnp_rom_checksum fix6_rom).getD (fix6_rom.length - 1) 0 =
      (256 - (((List.range' 9 (fix6_rom.length - 10)).map
        (fun i => fix6_rom.getD i 0)).sum % 256)) % 256 :=
  ⟨by decide, (rom_trailing_checksum fix6_rom (by decide)).2.1⟩

theorem read_data_resource_case (dev : isapnp_t) (h : dev.reg = 0x04) :
    isapnp_read_data dev =
      (match findConfigCard dev with
       | none => (0xff, dev)
       | some ci =>
         match dev.first_card.get? ci with
         | none => (0xff, dev)
         | some card =>
           if card.rom_pos ≥ card.rom_size then (0xff, dev)
           else (card.rom.getD card.rom_pos 0,
                 { dev with first_card :=
                     (listModify dev.first_card ci (fun c =>
                       { c with rom_pos := (c.rom_pos + 1) % 65536 })) })) := by
  simp [isapnp_read_data, h]

/-- C10: a Resource Data read (register 0x04) served by the first card
in CONFIG state returns 0xFF and leaves the cursor unchanged when the
ROM read cursor is at or past the ROM size, and otherwise returns the
ROM byte at the cursor and advances the cursor by exactly one. -/
theorem resource_data_read_bounds (dev : isapnp_t) (ci : Nat) (card : isapnp_card_t)
    (hreg : dev.reg = 0x04)
    (hfind : findConfigCard dev = some ci)
    (hget : dev.first_card.get? ci = some card)
    (hsz : card.rom_size ≤ 0xffff) :
    (card.rom_size ≤ card.rom_pos → isapnp_read_data dev = (0xff, dev)) ∧
    (card.rom_pos < card.rom_size →
      (isapnp_read_data dev).1 = card.rom.getD card.rom_pos 0 ∧
      (isapnp_read_data dev).2.first_card.get? ci =
        some { card with rom_pos := card.rom_pos + 1 } ∧
      (∀ j, j ≠ ci → (isapnp_read_data dev).2.first_card.get? j = dev.first_card.get? j) ∧
      (isapnp_read_data dev).2.reg = dev.reg ∧
      (isapnp_read_data dev).2.isolated_card = dev.isolated_card) := by
  rw [read_data_resource_case dev hreg, hfind]
  dsimp only
  rw [hget]
  dsimp only
  constructor
  · intro hge
    rw [if_pos hge]
  · intro hlt
    rw [if_neg (by omega)]
    have hmod : (card.rom_pos + 1) % 65536 = card.rom_pos + 1 :=
      Nat.mod_eq_of_lt (by omega)
    refine ⟨rfl, ?_, ?_, rfl, rfl⟩
    · rw [listModify_get_self, hget]
      simp [hmod]
    · intro j hj
      exact listModify_get_ne dev.first_card ci j _ hj

/-- Witness for C10 at the concrete state `fix10_dev` (cursor 1 of a
3-byte ROM): the read returns byte 0xBB and moves the cursor to 2. -/
theorem resource_data_read_bounds_witness :
    (isapnp_read_data fix10_dev).1 = 0xBB ∧
    (isapnp_read_data fix10_dev).2.first_card.get? 0 =
      some { fix10_card with rom_pos := 2 } := by
  have h := (resource_data_read_bounds fix10_dev 0 fix10_card rfl rfl rfl
    (by decide)).2 (by decide)
  exact ⟨h.1, h.2.1⟩

theorem write_data_csn_case (dev : isapnp_t) (val : Nat) (h : dev.reg = 0x06) :
    isapnp_write_data dev val =
      (match dev.isolated_card with
       | none => (dev, [])
       | some ci =>
         match dev.first_card.get? ci with
         | none => ({ dev with isolated_card := none }, [])
         | some card =>
           ({ dev with
                isolated_card := none
                first_card :=
                  (listModify dev.first_card ci (fun c =>
                    { c with csn := val % 256, state := PNP_STATE_CONFIG })) },
            if card.csn_changed then [isapnp_event.csn_changed (val % 256)] else [])) := by
  simp [isapnp_write_data, h]

/-- C9: the Set-CSN command acts only on the isolation engine's active
card: when one is selected it receives the CSN, the CSN-changed callback
fires, the card moves to CONFIG and the active-isolation reference is
cleared; when none is selected (whatever the card states are) nothing
changes and no callback fires. -/
theorem set_csn_requires_isolated_card (dev : isapnp_t) (val : Nat)
    (hreg : dev.reg = 0x06) :
    (∀ ci card, dev.isolated_card = some ci → dev.first_card.get? ci = some card →
      isapnp_write_data dev val =
        ({ dev with
             isolated_card := none
             first_card :=
               (listModify dev.first_card ci (fun c =>
                 { c with csn := val % 256, state := PNP_STATE_CONFIG })) },
         if card.csn_changed then [isapnp_event.csn_changed (val % 256)] else [])) ∧
    (dev.isolated_card = none → isapnp_write_data dev val = (dev, [])) := by
  constructor
  · intro ci card hiso hget
    rw [write_data_csn_case dev val hreg, hiso]
    dsimp only
    rw [hget]
  · intro hiso
    rw [write_data_csn_case dev val hreg, hiso]

/-- Witness for C9 at `fix9_dev`: Set-CSN 5 assigns CSN 5, fires the
callback, moves the card to CONFIG and clears the isolation reference. -/
theorem set_csn_requires_isolated_card_witness :
    isapnp_write_data fix9_dev 5 =
      ({ fix9_dev with
           isolated_card := none
           first_card := [{ fix9_card with csn := 5, state := PNP_STATE_CONFIG }] },
       [isapnp_event.csn_changed 5]) := by
  have h := (set_csn_requires_isolated_card fix9_dev 5 rfl).1 0 fix9_card rfl rfl
  simpa [listModify, fix9_dev, fix9_card] using h

theorem set_read_data_key_pos (addr : Nat) (dev : isapnp_t) :
    (isapnp_set_read_data addr dev).1.key_pos = dev.key_pos := by
  unfold isapnp_set_read_data
  dsimp only
  split
  · split <;> rfl
  · split <;> rfl

theorem set_read_data_first_card (addr : Nat) (dev : isapnp_t) :
    (isapnp_set_read_data addr dev).1.first_card = dev.first_card := by
  unfold isapnp_set_read_data
  dsimp only
  split
  · split <;> rfl
  · split <;> rfl

theorem write_cc_wait_for_key (dev : isapnp_t) (v : Nat) (hbit : v &&& 0x02 ≠ 0) :
    ∀ c ∈ (isapnp_write_cc dev v).1.first_card,
      c.state = PNP_STATE_WAIT_FOR_KEY := by
  unfold isapnp_write_cc
  dsimp only
  rw [if_pos hbit]
  intro c hc
  by_cases h4 : v &&& 0x04 ≠ 0
  · rw [if_pos h4] at hc
    dsimp only at hc
    simp only [List.mem_map] at hc
    obtain ⟨a, ⟨b, hb, rfl⟩, rfl⟩ := hc
    rfl
  · rw [if_neg h4] at hc
    dsimp only at hc
    simp only [List.mem_map] at hc
    obtain ⟨a, ha, rfl⟩ := hc
    rfl

theorem write_cc_key_pos (dev : isapnp_t) (v : Nat) :
    (isapnp_write_cc dev v).1.key_pos = dev.key_pos := by
  unfold isapnp_write_cc
  dsimp only
  split
  · dsimp only
    split
    · dsimp only
      split
      · simp [set_read_data_key_pos]
      · rfl
    · split
      · simp [set_read_data_key_pos]
      · rfl
  · dsimp only
    split
    · dsimp only
      split
      · simp [set_read_data_key_pos]
      · rfl
    · split
      · simp [set_read_data_key_pos]
      · rfl

/-- Counterexample to C7 as stated: a Config-Control write with bit 1
set, issued while the key-match cursor holds 5, leaves the cursor at 5
rather than resetting it to zero. -/
theorem config_control_leaves_key_cursor :
    fix7_dev.reg = 0x02 ∧ fix7_dev.key_pos = 5 ∧
    (isapnp_write_data fix7_dev 2).1.key_pos = 5 :=
  ⟨rfl, rfl, rfl⟩

/-- C7 (amended): a Config-Control command with bit 1 set transitions
every card on the bus to WAIT_FOR_KEY; the key-match cursor is left
unchanged (the source never resets `key_pos` here). -/
theorem config_control_wait_for_key (dev : isapnp_t) (val : Nat)
    (hreg : dev.reg = 0x02) (hbit : (val % 256) &&& 0x02 ≠ 0) :
    (∀ c ∈ (isapnp_write_data dev val).1.first_card,
       c.state = PNP_STATE_WAIT_FOR_KEY) ∧
    (isapnp_write_data dev val).1.key_pos = dev.key_pos := by
  have hdisp : isapnp_write_data dev val = isapnp_write_cc dev (val % 256) := by
    simp [isapnp_write_data, hreg]
  rw [hdisp]
  exact ⟨write_cc_wait_for_key dev _ hbit, write_cc_key_pos dev _⟩

/-- Witness for the amended C7 at `fix7_dev`. -/
theorem config_control_wait_for_key_witness :
    ((isapnp_write_data fix7_dev 2).1.first_card.getD 0 card0).state
      = PNP_STATE_WAIT_FOR_KEY ∧
    (isapnp_write_data fix7_dev 2).1.key_pos = 5 := by
  have h := config_control_wait_for_key fix7_dev 2 rfl (by decide)
  refine ⟨h.1 _ ?_, h.2⟩
  show _ ∈ (isapnp_write_data fix7_dev 2).1.first_card
  have hl : (isapnp_write_data fix7_dev 2).1.first_card =
      [{ card0 with state := PNP_STATE_WAIT_FOR_KEY }] := rfl
  rw [hl]
  exact List.mem_cons_self _ _

/-- Counterexample to C3 as stated: with the first card asleep and the
second card still in WAIT_FOR_KEY, an address-port write is not compared
against the key (the mismatching byte 0x6A does not reset the cursor,
which stays at 3) and instead sets the active register index, although a
card is in WAIT_FOR_KEY. -/
theorem write_addr_ignores_non_first_waiting_card :
    (fix3_dev.first_card.getD 1 card0).state = PNP_STATE_WAIT_FOR_KEY ∧
    fix3_dev.reg = 0 ∧ fix3_dev.key_pos = 3 ∧
    (isapnp_write_addr fix3_dev 0x6A).reg = 0x6A ∧
    (isapnp_write_addr fix3_dev 0x6A).key_pos = 3 :=
  ⟨rfl, rfl, rfl, rfl, rfl⟩

/-- C3 (amended): address-port writes are dispatched on the state of the
first card only.  While the first card is in WAIT_FOR_KEY the byte is
compared against the next initiation-key byte: a mismatch resets the
cursor to zero, a match advances it, and completing all 32 bytes moves
every WAIT_FOR_KEY card to SLEEP with the cursor wrapped back to zero.
When the first card is not in WAIT_FOR_KEY the write sets the active
register index, and with no cards at all it does nothing. -/
theorem write_addr_first_card_dispatch (dev : isapnp_t) (val : Nat) :
    (dev.first_card = [] → isapnp_write_addr dev val = dev) ∧
    (∀ card rest, dev.first_card = card :: rest →
      ((card.state = PNP_STATE_WAIT_FOR_KEY →
         ((val % 256 = pnp_init_key.getD dev.key_pos 0 →
             (((dev.key_pos + 1) % 32 = 0 →
                isapnp_write_addr dev val =
                  { dev with
                      key_pos := 0
                      first_card := dev.first_card.map (fun c =>
                        if c.state = PNP_STATE_WAIT_FOR_KEY then
                          { c with state := PNP_STATE_SLEEP }
                        else c) }) ∧
              ((dev.key_pos + 1) % 32 ≠ 0 →
                isapnp_write_addr dev val =
                  { dev with key_pos := (dev.key_pos + 1) % 32 }))) ∧
          (val % 256 ≠ pnp_init_key.getD dev.key_pos 0 →
             isapnp_write_addr dev val = { dev with key_pos := 0 }))) ∧
       (card.state ≠ PNP_STATE_WAIT_FOR_KEY →
          isapnp_write_addr dev val = { dev with reg := val % 256 }))) := by
  constructor
  · intro h
    unfold isapnp_write_addr
    rw [h]
  · intro card rest h
    constructor
    · intro hw
      constructor
      · intro hmatch
        constructor
        · intro hwrap
          unfold isapnp_write_addr
          rw [h]
          dsimp only
          rw [if_pos hw, if_pos hmatch, if_pos hwrap, ← h]
        · intro hwrap
          unfold isapnp_write_addr
          rw [h]
          dsimp only
          rw [if_pos hw, if_pos hmatch, if_neg hwrap]
      · intro hmatch
        unfold isapnp_write_addr
        rw [h]
        dsimp only
        rw [if_pos hw, if_neg hmatch]
    · intro hw
      unfold isapnp_write_addr
      rw [h]
      dsimp only
      rw [if_neg hw]

/-- Witness for the amended C3 at `fix3_wdev`: the first key byte
advances the cursor from 0 to 1. -/
theorem write_addr_first_card_dispatch_witness :
    isapnp_write_addr fix3_wdev 0x6A = { fix3_wdev with key_pos := 1 } := by
  have h := (((write_addr_first_card_dispatch fix3_wdev 0x6A).2
    { card0 with state := PNP_STATE_WAIT_FOR_KEY } [] rfl).1 rfl).1 (by decide)
  simpa using h.2 (by decide)

/-- C4: at a start-dependent-function item (small kind 0x06) the parser
snapshots the memory-range and 32-bit memory-range slot counters on
first entry, and rewinds both counters to that snapshot on each
subsequent entry; while inside a dependent-function group, memory-range
descriptors leave the snapshot untouched, so every alternative is
assigned the same slots. -/
theorem dependent_function_snapshot_rewind (rom : List Nat) (s : parse_state)
    (hfatal : s.fatal = false) :
    ((rom.getD s.i 0 &&& 0x80 = 0 → (rom.getD s.i 0 >>> 3) &&& 0x0f = 0x06 →
       ((s.in_df = false →
          parseStep rom s =
            { s with
                mem_range_df := s.mem_range
                mem_range_32_df := s.mem_range_32
                in_df := true
                i := s.i + 1 + (rom.getD s.i 0 &&& 0x07) }) ∧
        (s.in_df = true →
          parseStep rom s =
            { s with
                mem_range := s.mem_range_df
                mem_range_32 := s.mem_range_32_df
                i := s.i + 1 + (rom.getD s.i 0 &&& 0x07) }))) ∧
     (s.in_df = true → rom.getD s.i 0 &&& 0x80 ≠ 0 →
       (rom.getD s.i 0 &&& 0x7f = 0x01 ∨ rom.getD s.i 0 &&& 0x7f = 0x05) →
       (parseStep rom s).mem_range_df = s.mem_range_df ∧
       (parseStep rom s).mem_range_32_df = s.mem_range_32_df ∧
       (parseStep rom s).in_df = true)) := by
  constructor
  · intro h80 h6
    have hns : ¬(rom.getD s.i 0 &&& 0x80 ≠ 0) := fun hcon => hcon h80
    constructor
    · intro hdf
      unfold parseStep
      rw [if_neg (by simp [hfatal]), if_neg hns]
      dsimp only
      rw [h6, hdf]
      rfl
    · intro hdf
      unfold parseStep
      rw [if_neg (by simp [hfatal]), if_neg hns]
      dsimp only
      rw [h6, hdf]
      rfl
  · intro hdf h80 hres
    unfold parseStep
    rw [if_neg (by simp [hfatal]), if_pos h80]
    dsimp only
    rcases hres with h1 | h5
    · rw [h1]
      by_cases hov : s.mem_range > 3
      · rw [if_pos hov]
        exact ⟨rfl, rfl, hdf⟩
      · rw [if_neg hov]
        rw [hdf]
        unfold parseApplyUpper
        repeat' split
        all_goals simp_all [hfatal]
    · rw [h5]
      by_cases hov : s.mem_range_32 > 3
      · rw [if_pos hov]
        exact ⟨rfl, rfl, hdf⟩
      · rw [if_neg hov]
        rw [hdf]
        unfold parseApplyUpper
        repeat' split
        all_goals simp_all [hfatal]

/-- Witness for C4 at `fix4_state` (first start-DF item of `fix4_rom`):
the counters are snapshotted and the in-DF flag raised. -/
theorem dependent_function_snapshot_rewind_witness :
    parseStep fix4_rom fix4_state =
      { fix4_state with
          mem_range_df := 1
          mem_range_32_df := 0
          in_df := true
          i := 7 } := by
  have h := ((dependent_function_snapshot_rewind fix4_rom fix4_state rfl).1
    (by decide) (by decide)).1 rfl
  simpa using h

/-- C5: when the upper-limit flag bit of a memory-range group is set,
the translation reinterprets the assembled size field as an absolute
upper bound and reports size as the 32-bit difference bound minus base;
the same conversion applies to the 32-bit groups; and the concrete
scenario of writing base 0x001000 and an upper-limit size field of
0x002000 through the bus ports yields a window with base 0x1000 and
size 0x1000 in the emitted configuration record. -/
theorem upper_limit_size_translation :
    (∀ (regs : Nat → Nat) (i : Nat), i < 4 →
       regs (0x40 + 8 * i + 2) &&& 0x01 ≠ 0 →
       (isapnp_config regs).mem.get? i =
         some { base := (regs (0x40 + 8 * i) <<< 16) ||| (regs (0x40 + 8 * i + 1) <<< 8)
                size := ((((regs (0x40 + 8 * i + 3) <<< 16) ||| (regs (0x40 + 8 * i + 4) <<< 8)) +
                         2 ^ 32 -
                         ((regs (0x40 + 8 * i) <<< 16) ||| (regs (0x40 + 8 * i + 1) <<< 8))) %
                        2 ^ 32) }) ∧
    (∀ (regs : Nat → Nat) (i rb : Nat), i < 4 →
       rb = (if i = 0 then 0x76 else 0x80 + 16 * i) →
       regs (rb + 4) &&& 0x01 ≠ 0 →
       (isapnp_config regs).mem32.get? i =
         some { base := (regs rb <<< 24) ||| (regs (rb + 1) <<< 16) |||
                        (regs (rb + 2) <<< 8) ||| regs (rb + 3)
                size := ((((regs (rb + 5) <<< 24) ||| (regs (rb + 6) <<< 16) |||
                           (regs (rb + 7) <<< 8) ||| regs (rb + 8)) +
                         2 ^ 32 -
                         ((regs rb <<< 24) ||| (regs (rb + 1) <<< 16) |||
                          (regs (rb + 2) <<< 8) ||| regs (rb + 3))) %
                        2 ^ 32) }) ∧
    (∀ b sz : Nat, b ≤ sz → sz < 2 ^ 32 → (sz + 2 ^ 32 - b) % 2 ^ 32 = sz - b) ∧
    (isapnp_write_data fix5_dev3 0x20).2 =
      [isapnp_event.config_changed 0 fix5_expected] := by
  refine ⟨?_, ?_, ?_, by decide⟩
  · intro regs i hi hflag
    simp only [isapnp_config]
    rw [List.get?_map, List.get?_range hi]
    dsimp only [Option.map]
    rw [if_pos hflag]
  · intro regs i rb hi hrb hflag
    simp only [isapnp_config]
    rw [List.get?_map, List.get?_range hi]
    dsimp only [Option.map]
    rw [← hrb, if_pos hflag]
  · intro b sz hb hsz
    omega

/-- Witness for C5: both upper-limit conversions evaluated on the
all-ones register file. -/
theorem upper_limit_size_translation_witness :
    (isapnp_config ones_regs).mem.get? 0 = some { base := 0x10100, size := 0 } ∧
    (isapnp_config ones_regs).mem32.get? 1 = some { base := 0x1010101, size := 0 } := by
  have h1 := upper_limit_size_translation.1 ones_regs 0 (by decide) (by decide)
  have h2 := upper_limit_size_translation.2.1 ones_regs 1 0x90 (by decide) (by decide) (by decide)
  constructor
  · rw [h1]; decide
  · rw [h2]; decide

theorem shiftr3_div (x : Nat) : x >>> 3 = x / 8 := by
  simpa using Nat.shiftRight_eq_div_pow x 3

theorem and7_mod (x : Nat) : x &&& 7 = x % 8 := by
  have h := Nat.and_pow_two_sub_one_eq_mod x 3
  norm_num at h
  exact h

theorem and_one_le (x : Nat) : x &&& 1 ≤ 1 := by
  rw [Nat.and_one_is_mod]
  omega

theorem xor_bits_and_one (x y b : Nat) (hx : x ≤ 1) (hy : y ≤ 1) (hb : b ≤ 1) :
    (x ^^^ y ^^^ b) &&& 1 = x ^^^ y ^^^ b := by
  interval_cases x <;> interval_cases y <;> interval_cases b <;> decide

theorem ite_bit_form (b : Nat) (hb : b ≤ 1) (u v : Nat) :
    (if b ≠ 0 then u else v) = (if b = 1 then u else v) := by
  interval_cases b <;> simp

theorem serial_step_first_half (card : isapnp_card_t)
    (hpair : card.serial_read_pair = false) :
    (card.serial_read_pos < 64 →
      isapnp_serial_step card =
        { card with
            id_checksum := (card.id_checksum >>> 1) |||
              ((((card.id_checksum >>> 1) &&& 1) ^^^ (card.id_checksum &&& 1) ^^^
                ((card.rom.getD (card.serial_read_pos / 8) 0 >>>
                  (card.serial_read_pos % 8)) &&& 1)) <<< 7)
            serial_read :=
              (if (card.rom.getD (card.serial_read_pos / 8) 0 >>>
                   (card.serial_read_pos % 8)) &&& 1 = 1 then 0x55 else 0x00)
            serial_read_pos := (card.serial_read_pos + 1) % 72
            serial_read_pair := true }) ∧
    (64 ≤ card.serial_read_pos →
      isapnp_serial_step card =
        { card with
            rom := (if card.serial_read_pos = 64 then
                      card.rom.set 8 card.id_checksum
                    else card.rom)
            serial_read :=
              (if (card.id_checksum >>> (card.serial_read_pos % 8)) &&& 1 = 1
               then 0x55 else 0x00)
            serial_read_pos := (card.serial_read_pos + 1) % 72
            serial_read_pair := true }) := by
  constructor
  · intro hlt
    unfold isapnp_serial_step
    rw [hpair]
    dsimp only
    rw [if_neg (show ¬(false = true) by decide)]
    rw [if_pos hlt]
    rw [shiftr3_div, and7_mod,
        and_two_ite card.id_checksum, and_one_ite card.id_checksum,
        xor_bits_and_one _ _ _ (and_one_le _) (and_one_le _) (and_one_le _),
        ite_bit_form _ (and_one_le _)]
    rfl
  · intro hge
    unfold isapnp_serial_step
    rw [hpair]
    dsimp only
    rw [if_neg (show ¬(false = true) by decide)]
    rw [if_neg (show ¬(card.serial_read_pos < 64) by omega)]
    by_cases h64 : card.serial_read_pos = 64
    · rw [if_pos h64]
      dsimp only
      rw [and7_mod, ite_bit_form _ (and_one_le _), if_pos h64]
      rfl
    · rw [if_neg h64]
      dsimp only
      rw [and7_mod, ite_bit_form _ (and_one_le _), if_neg h64, hpair]
      rfl

theorem read_data_serial_case (dev : isapnp_t) (h : dev.reg = 0x01) :
    isapnp_read_data dev =
      (match dev.first_card.findIdx? (fun c => c.state == PNP_STATE_ISOLATION) with
       | none => (0xff, { dev with isolated_card := none })
       | some ci =>
         match dev.first_card.get? ci with
         | none => (0xff, { dev with isolated_card := none })
         | some card =>
           ((isapnp_serial_step card).serial_read,
            { dev with
                isolated_card := some ci
                first_card :=
                  (listModify dev.first_card ci
                    (fun _ => isapnp_serial_step card)) })) := by
  simp [isapnp_read_data, h]

/-- C1: a serial-isolation read in the first half of a bit pair at
position p returns 0x55 or 0x00 according to bit p of the 64-bit
identifier (ROM bytes 0..7, LSB-first) when p < 64, advancing the LFSR
checksum register by new = (cs >>> 1) ||| ((bit1 ^^^ bit0 ^^^ data) <<< 7);
for 64 ≤ p it returns bit (p mod 8) of the checksum register, writing
the checksum into ROM byte 8 exactly at p = 64; the position advances by
one modulo 72.  The final conjunct records the seeding of the checksum
register with 0x6A (the first key byte) by the Wake command. -/
theorem serial_isolation_first_half_read (dev : isapnp_t) (ci : Nat)
    (card : isapnp_card_t)
    (hreg : dev.reg = 0x01)
    (hfind : dev.first_card.findIdx? (fun c => c.state == PNP_STATE_ISOLATION) = some ci)
    (hget : dev.first_card.get? ci = some card)
    (hpair : card.serial_read_pair = false) :
    (card.serial_read_pos < 64 →
       (isapnp_read_data dev).1 =
         (if (card.rom.getD (card.serial_read_pos / 8) 0 >>>
              (card.serial_read_pos % 8)) &&& 1 = 1 then 0x55 else 0x00) ∧
       (isapnp_read_data dev).2.first_card.get? ci =
         some { card with
                  id_checksum := (card.id_checksum >>> 1) |||
                    ((((card.id_checksum >>> 1) &&& 1) ^^^ (card.id_checksum &&& 1) ^^^
                      ((card.rom.getD (card.serial_read_pos / 8) 0 >>>
                        (card.serial_read_pos % 8)) &&& 1)) <<< 7)
                  serial_read :=
                    (if (card.rom.getD (card.serial_read_pos / 8) 0 >>>
                         (card.serial_read_pos % 8)) &&& 1 = 1 then 0x55 else 0x00)
                  serial_read_pos := (card.serial_read_pos + 1) % 72
                  serial_read_pair := true }) ∧
    (64 ≤ card.serial_read_pos →
       (isapnp_read_data dev).1 =
         (if (card.id_checksum >>> (card.serial_read_pos % 8)) &&& 1 = 1
          then 0x55 else 0x00) ∧
       (isapnp_read_data dev).2.first_card.get? ci =
         some { card with
                  rom := (if card.serial_read_pos = 64 then
                            card.rom.set 8 card.id_checksum
                          else card.rom)
                  serial_read :=
                    (if (card.id_checksum >>> (card.serial_read_pos % 8)) &&& 1 = 1
                     then 0x55 else 0x00)
                  serial_read_pos := (card.serial_read_pos + 1) % 72
                  serial_read_pair := true }) ∧
    (∀ (d : isapnp_t) (v ci2 : Nat) (c : isapnp_card_t),
       d.reg = 0x03 → d.first_card.get? ci2 = some c → c.csn = v % 256 →
       ((isapnp_write_data d v).1.first_card.get? ci2).map
           (fun c2 => (c2.id_checksum, c2.rom_pos)) = some (0x6A, 0)) := by
  refine ⟨?_, ?_, ?_⟩
  · intro hlt
    rw [read_data_serial_case dev hreg, hfind]
    dsimp only
    rw [hget]
    dsimp only
    rw [(serial_step_first_half card hpair).1 hlt]
    refine ⟨rfl, ?_⟩
    rw [listModify_get_self, hget]
    rfl
  · intro hge
    rw [read_data_serial_case dev hreg, hfind]
    dsimp only
    rw [hget]
    dsimp only
    rw [(serial_step_first_half card hpair).2 hge]
    refine ⟨rfl, ?_⟩
    rw [listModify_get_self, hget]
    rfl
  · intro d v ci2 c hreg2 hget2 hcsn
    have hdisp : isapnp_write_data d v = (isapnp_write_wake d (v % 256), []) := by
      simp [isapnp_write_data, hreg2]
    rw [hdisp]
    dsimp only
    unfold isapnp_write_wake
    dsimp only
    rw [List.get?_map, hget2]
    dsimp only [Option.map]
    rw [if_pos hcsn]
    by_cases hs : c.state = PNP_STATE_SLEEP
    · rw [if_pos hs]
      rfl
    · rw [if_neg hs]
      rfl

/-- Witness for C1 at `fix1_dev` (position 0, checksum 0x6A, first ROM
byte 0xAB): the read returns 0x55 and the checksum advances to 0x35. -/
theorem serial_isolation_first_half_read_witness :
    (isapnp_read_data fix1_dev).1 = 0x55 ∧
    ((isapnp_read_data fix1_dev).2.first_card.get? 0).map
        (fun c => (c.id_checksum, c.serial_read_pos, c.serial_read_pair)) =
      some (0x35, 1, true) := by
  have h := (serial_isolation_first_half_read fix1_dev 0 fix1_card rfl rfl rfl rfl).1
    (by decide)
  refine ⟨?_, ?_⟩
  · rw [h.1]
    decide
  · rw [h.2]
    decide

theorem ldAt_first_card_eq (d1 d2 : isapnp_t) (ci li : Nat)
    (h : d1.first_card = d2.first_card) : ldAt d1 ci li = ldAt d2 ci li := by
  unfold ldAt
  rw [h]

theorem cards_ld_map (l : List isapnp_card_t) (g : isapnp_card_t → isapnp_card_t)
    (hg : ∀ c, (g c).first_ld = c.first_ld) (ci li : Nat) :
    ((l.map g).get? ci).bind (fun c => c.first_ld.get? li) =
      (l.get? ci).bind (fun c => c.first_ld.get? li) := by
  rw [List.get?_map]
  cases l.get? ci with
  | none => rfl
  | some c =>
    simp only [Option.map_some', Option.some_bind]
    rw [hg c]

theorem cards_ld_listModify (l : List isapnp_card_t) (ci0 : Nat)
    (g : isapnp_card_t → isapnp_card_t)
    (hg : ∀ c, (g c).first_ld = c.first_ld) (ci li : Nat) :
    ((listModify l ci0 g).get? ci).bind (fun c => c.first_ld.get? li) =
      (l.get? ci).bind (fun c => c.first_ld.get? li) := by
  by_cases hc : ci = ci0
  · subst hc
    rw [listModify_get_self]
    cases l.get? ci with
    | none => rfl
    | some c =>
      simp only [Option.map_some', Option.some_bind]
      rw [hg c]
  · rw [listModify_get_ne _ _ _ _ hc]

theorem wake_ldAt (dev : isapnp_t) (v ci li : Nat) :
    ldAt (isapnp_write_wake dev v) ci li = ldAt dev ci li := by
  unfold isapnp_write_wake ldAt
  dsimp only
  refine cards_ld_map dev.first_card _ ?_ ci li
  intro c
  dsimp only
  split
  · split <;> rfl
  · rfl

theorem ldAt_modifyLd (dev : isapnp_t) (ci li : Nat) (card : isapnp_card_t)
    (ld : isapnp_device_t) (f : isapnp_device_t → isapnp_device_t)
    (hcard : dev.first_card.get? ci = some card)
    (hld : card.first_ld.get? li = some ld) :
    ldAt (modifyLd dev ci li f) ci li = some (f ld) := by
  unfold ldAt modifyLd
  dsimp only
  rw [listModify_get_self, hcard]
  simp only [Option.map_some', Option.some_bind]
  rw [listModify_get_self, hld]
  rfl

theorem ldAt_modifyLd_low_bit (dev : isapnp_t) (ci0 li0 : Nat)
    (f : isapnp_device_t → isapnp_device_t) (r : Nat)
    (hf : ∀ l, ldAt dev ci0 li0 = some l → (f l).regs r &&& 1 = l.regs r &&& 1)
    (ci li : Nat) :
    (ldAt (modifyLd dev ci0 li0 f) ci li).map (fun l => l.regs r &&& 1) =
      (ldAt dev ci li).map (fun l => l.regs r &&& 1) := by
  unfold modifyLd ldAt
  dsimp only
  by_cases hc : ci = ci0
  · subst hc
    rw [listModify_get_self]
    cases hcc : dev.first_card.get? ci with
    | none => rfl
    | some c =>
      simp only [Option.map_some', Option.some_bind]
      by_cases hl : li = li0
      · subst hl
        rw [listModify_get_self]
        cases hld : c.first_ld.get? li with
        | none => rfl
        | some l =>
          simp only [Option.map_some']
          have hfl := hf l (by unfold ldAt; rw [hcc]; exact hld)
          rw [hfl]
      · rw [listModify_get_ne _ _ _ _ hl]
  · rw [listModify_get_ne _ _ _ _ hc]

theorem write_data_activate_case (dev : isapnp_t) (val : Nat) (h : dev.reg = 0x30) :
    isapnp_write_data dev val =
      (match dev.current_ld with
       | none => (dev, [])
       | some (ci, li) =>
         match dev.first_card.get? ci with
         | none => (dev, [])
         | some card =>
           match card.first_ld.get? li with
           | none => (dev, [])
           | some ld =>
             (modifyLd dev ci li (fun _ =>
                { ld with regs := Function.update ld.regs 0x30 ((val % 256) &&& 0x01) }),
              isapnp_device_config_changed card
                { ld with regs := Function.update ld.regs 0x30 ((val % 256) &&& 0x01) })) := by
  simp [isapnp_write_data, h]

theorem write_data_default_case (dev : isapnp_t) (val : Nat)
    (h40 : 0x40 ≤ dev.reg) (hvnd : ¬(0xf0 ≤ dev.reg ∧ dev.reg ≤ 0xfe)) :
    isapnp_write_data dev val =
      (match dev.current_ld with
       | none => (dev, [])
       | some (ci, li) =>
         match dev.first_card.get? ci with
         | none => (dev, [])
         | some card =>
           match card.first_ld.get? li with
           | none => (dev, [])
           | some ld =>
             (modifyLd dev ci li (fun _ =>
                { ld with regs := (Function.update ld.regs dev.reg
                    (if dev.reg = 0x42 ∨ dev.reg = 0x4a ∨ dev.reg = 0x52 ∨ dev.reg = 0x5a ∨
                        dev.reg = 0x7a ∨ dev.reg = 0x84 ∨ dev.reg = 0x94 ∨ dev.reg = 0xa4 then
                       ((val % 256) &&& 0xfe) ||| (ld.regs dev.reg &&& 0x01)
                     else val % 256)) }),
              isapnp_device_config_changed card
                { ld with regs := (Function.update ld.regs dev.reg
                    (if dev.reg = 0x42 ∨ dev.reg = 0x4a ∨ dev.reg = 0x52 ∨ dev.reg = 0x5a ∨
                        dev.reg = 0x7a ∨ dev.reg = 0x84 ∨ dev.reg = 0x94 ∨ dev.reg = 0xa4 then
                       ((val % 256) &&& 0xfe) ||| (ld.regs dev.reg &&& 0x01)
                     else val % 256)) })) := by
  have h00 : dev.reg ≠ 0x00 := by omega
  have h02 : dev.reg ≠ 0x02 := by omega
  have h03 : dev.reg ≠ 0x03 := by omega
  have h06 : dev.reg ≠ 0x06 := by omega
  have h07 : dev.reg ≠ 0x07 := by omega
  have h30 : dev.reg ≠ 0x30 := by omega
  have h31 : dev.reg ≠ 0x31 := by omega
  have hv1 : ¬(0x20 ≤ dev.reg ∧ dev.reg ≤ 0x2f) := by omega
  have hv2 : ¬((0x38 ≤ dev.reg ∧ dev.reg ≤ 0x3f) ∨ (0xf0 ≤ dev.reg ∧ dev.reg ≤ 0xfe)) := by
    push_neg
    constructor
    · intro h38
      omega
    · intro hf0
      omega
  simp [isapnp_write_data, h00, h02, h03, h06, h07, h30, h31, hv1, hv2, h40]

/-- Counterexample to C2 as stated: register 0xF0 has index ≥ 0x40, a
logical device is addressed and its card registered the
configuration-changed callback, yet a data-port write to it emits no
callback (it is routed to the vendor-defined register handler). -/
theorem vendor_register_write_skips_config_callback :
    0x40 ≤ (fix2_dev 0xf0).reg ∧
    (fix2_dev 0xf0).current_ld = some (0, 0) ∧
    ((fix2_dev 0xf0).first_card.getD 0 card0).config_changed = true ∧
    (isapnp_write_data (fix2_dev 0xf0) 0x12).2 = [] :=
  ⟨by decide, rfl, rfl, rfl⟩

/-- C2 (amended): with a logical device addressed, every data-port write
to the activation register 0x30 and to any register index ≥ 0x40 other
than the vendor-defined range 0xF0..0xFE recomputes the configuration
record from the device registers and synchronously invokes the
configuration-changed callback, a no-op when the card registered none. -/
theorem config_register_write_fires_callback (dev : isapnp_t) (val : Nat)
    (ci li : Nat) (card : isapnp_card_t) (ld : isapnp_device_t)
    (hcur : dev.current_ld = some (ci, li))
    (hcard : dev.first_card.get? ci = some card)
    (hld : card.first_ld.get? li = some ld)
    (hreg : dev.reg = 0x30 ∨ (0x40 ≤ dev.reg ∧ ¬(0xf0 ≤ dev.reg ∧ dev.reg ≤ 0xfe))) :
    ∃ ld2, ldAt (isapnp_write_data dev val).1 ci li = some ld2 ∧
      ld2.number = ld.number ∧
      (isapnp_write_data dev val).2 =
        (if card.config_changed then
           [isapnp_event.config_changed ld2.number (isapnp_config ld2.regs)]
         else []) := by
  rcases hreg with h30 | ⟨h40, hvnd⟩
  · rw [write_data_activate_case dev val h30, hcur]
    dsimp only
    rw [hcard]
    dsimp only
    rw [hld]
    dsimp only
    refine ⟨_, ldAt_modifyLd dev ci li card ld _ hcard hld, rfl, rfl⟩
  · rw [write_data_default_case dev val h40 hvnd, hcur]
    dsimp only
    rw [hcard]
    dsimp only
    rw [hld]
    dsimp only
    refine ⟨_, ldAt_modifyLd dev ci li card ld _ hcard hld, rfl, rfl⟩

/-- Witness for the amended C2: a write of 0x12 to register 0x45 of
`fix2_card` device 0 emits exactly one configuration-changed callback
carrying the record translated from the updated registers. -/
theorem config_register_write_fires_callback_witness :
    (isapnp_write_data (fix2_dev 0x45) 0x12).2 =
      [isapnp_event.config_changed 0
        (isapnp_config (Function.update ld0.regs 0x45 (0x12 % 256)))] := by
  obtain ⟨ld2, h1, h2, h3⟩ := config_register_write_fires_callback
    (fix2_dev 0x45) 0x12 0 0 fix2_card ld0 rfl rfl rfl (Or.inr (by decide))
  have hval : ldAt (isapnp_write_data (fix2_dev 0x45) 0x12).1 0 0 =
      some { ld0 with regs := Function.update ld0.regs 0x45 (0x12 % 256) } := rfl
  rw [hval] at h1
  obtain rfl := Option.some.inj h1
  rw [h3]
  rfl

/-- C8: a data-port write to any of the memory-range length / flag
registers 0x42, 0x4A, 0x52, 0x5A, 0x7A, 0x84, 0x94, 0xA4 stores the high
seven bits of the written value but keeps the low bit of the previously
stored byte, and the low bit of each such register is invariant under
every data-port write other than Config-Control (register index 0x02,
whose reset re-derives the bit from the parser mask rather than from a
guest value). -/
theorem mem_length_low_bit_invariant (dev : isapnp_t) (val : Nat) :
    (∀ ci li card ld,
       (dev.reg = 0x42 ∨ dev.reg = 0x4a ∨ dev.reg = 0x52 ∨ dev.reg = 0x5a ∨
        dev.reg = 0x7a ∨ dev.reg = 0x84 ∨ dev.reg = 0x94 ∨ dev.reg = 0xa4) →
       dev.current_ld = some (ci, li) →
       dev.first_card.get? ci = some card →
       card.first_ld.get? li = some ld →
       ldAt (isapnp_write_data dev val).1 ci li =
         some { ld with regs := (Function.update ld.regs dev.reg
                  (((val % 256) &&& 0xfe) ||| (ld.regs dev.reg &&& 0x01))) } ∧
       (((val % 256) &&& 0xfe) ||| (ld.regs dev.reg &&& 0x01)) &&& 0x01 =
         ld.regs dev.reg &&& 0x01) ∧
    (∀ r, dev.reg ≠ 0x02 →
       (r = 0x42 ∨ r = 0x4a ∨ r = 0x52 ∨ r = 0x5a ∨
        r = 0x7a ∨ r = 0x84 ∨ r = 0x94 ∨ r = 0xa4) →
       ∀ ci li,
         (ldAt (isapnp_write_data dev val).1 ci li).map (fun l => l.regs r &&& 1) =
           (ldAt dev ci li).map (fun l => l.regs r &&& 1)) := by
  constructor
  · intro ci li card ld hrl hcur hcard hld
    have h40 : 0x40 ≤ dev.reg := by rcases hrl with h|h|h|h|h|h|h|h <;> omega
    have hvnd : ¬(0xf0 ≤ dev.reg ∧ dev.reg ≤ 0xfe) := by
      rcases hrl with h|h|h|h|h|h|h|h <;> omega
    rw [write_data_default_case dev val h40 hvnd, hcur]
    dsimp only
    rw [hcard]
    dsimp only
    rw [hld]
    dsimp only
    constructor
    · rw [ldAt_modifyLd dev ci li card ld _ hcard hld, if_pos hrl]
    · exact splice_keeps_low_bit _ _
  · intro r h02 hrl ci li
    have hr30 : r ≠ 0x30 := by rcases hrl with h|h|h|h|h|h|h|h <;> omega
    have hr31 : r ≠ 0x31 := by rcases hrl with h|h|h|h|h|h|h|h <;> omega
    by_cases h00 : dev.reg = 0x00
    · have hfc : (isapnp_write_data dev val).1.first_card = dev.first_card := by
        simp only [isapnp_write_data]
        rw [if_pos h00]
        exact set_read_data_first_card _ _
      rw [ldAt_first_card_eq _ dev ci li hfc]
    by_cases h03 : dev.reg = 0x03
    · have hd : (isapnp_write_data dev val).1 = isapnp_write_wake dev (val % 256) := by
        simp only [isapnp_write_data]
        rw [if_neg h00, if_neg h02, if_pos h03]
      rw [hd, wake_ldAt]
    by_cases h06 : dev.reg = 0x06
    · rw [write_data_csn_case dev val h06]
      cases hiso : dev.isolated_card with
      | none => rfl
      | some ci0 =>
        dsimp only
        cases hc0 : dev.first_card.get? ci0 with
        | none => rfl
        | some c0 =>
          dsimp only
          unfold ldAt
          dsimp only
          exact congrArg (Option.map (fun l => l.regs r &&& 1))
            (cards_ld_listModify dev.first_card ci0
              (fun c => { c with csn := val % 256, state := PNP_STATE_CONFIG })
              (fun c => rfl) ci li)
    by_cases h07 : dev.reg = 0x07
    · have hfc : (isapnp_write_data dev val).1.first_card = dev.first_card := by
        simp only [isapnp_write_data]
        rw [if_neg h00, if_neg h02, if_neg h03, if_neg h06, if_pos h07]
        cases hf : findConfigCard dev with
        | none => rfl
        | some ci0 =>
          dsimp only
          cases hc0 : dev.first_card.get? ci0 with
          | none => rfl
          | some c0 =>
            dsimp only
            cases hl0 : c0.first_ld.findIdx? (fun l => l.number == val % 256) with
            | none => rfl
            | some li0 => rfl
      rw [ldAt_first_card_eq _ dev ci li hfc]
    by_cases h30 : dev.reg = 0x30
    · rw [write_data_activate_case dev val h30]
      cases hcur : dev.current_ld with
      | none => rfl
      | some p =>
        obtain ⟨ci0, li0⟩ := p
        dsimp only
        cases hc0 : dev.first_card.get? ci0 with
        | none => rfl
        | some c0 =>
          dsimp only
          cases hl0 : c0.first_ld.get? li0 with
          | none => rfl
          | some l0 =>
            dsimp only
            refine ldAt_modifyLd_low_bit dev ci0 li0 _ r ?_ ci li
            intro l hl
            have hll : l = l0 := by
              unfold ldAt at hl
              rw [hc0] at hl
              simp only [Option.some_bind] at hl
              rw [hl0] at hl
              exact (Option.some.inj hl).symm
            subst hll
            dsimp only
            rw [Function.update_noteq hr30]
    by_cases h31 : dev.reg = 0x31
    · cases hcur : dev.current_ld with
      | none =>
        have hd : isapnp_write_data dev val = (dev, []) := by
          simp only [isapnp_write_data]
          rw [if_neg h00, if_neg h02, if_neg h03, if_neg h06, if_neg h07, if_neg h30,
              if_pos h31, hcur]
        rw [hd]
      | some p =>
        obtain ⟨ci0, li0⟩ := p
        cases hc0 : dev.first_card.get? ci0 with
        | none =>
          have hd : isapnp_write_data dev val = (dev, []) := by
            simp only [isapnp_write_data]
            rw [if_neg h00, if_neg h02, if_neg h03, if_neg h06, if_neg h07, if_neg h30,
                if_pos h31, hcur]
            dsimp only
            rw [hc0]
          rw [hd]
        | some c0 =>
          cases hl0 : c0.first_ld.get? li0 with
          | none =>
            have hd : isapnp_write_data dev val = (dev, []) := by
              simp only [isapnp_write_data]
              rw [if_neg h00, if_neg h02, if_neg h03, if_neg h06, if_neg h07, if_neg h30,
                  if_pos h31, hcur]
              dsimp only
              rw [hc0]
              dsimp only
              rw [hl0]
            rw [hd]
          | some l0 =>
            have hd : (isapnp_write_data dev val).1 =
                modifyLd dev ci0 li0 (fun l =>
                  { l with regs := Function.update l.regs 0x31 ((val % 256) &&& 0x03) }) := by
              simp only [isapnp_write_data]
              rw [if_neg h00, if_neg h02, if_neg h03, if_neg h06, if_neg h07, if_neg h30,
                  if_pos h31, hcur]
              dsimp only
              rw [hc0]
              dsimp only
              rw [hl0]
            rw [hd]
            refine ldAt_modifyLd_low_bit dev ci0 li0 _ r ?_ ci li
            intro l _
            dsimp only
            rw [Function.update_noteq hr31]
    by_cases hv1 : 0x20 ≤ dev.reg ∧ dev.reg ≤ 0x2f
    · have hfc : (isapnp_write_data dev val).1.first_card = dev.first_card := by
        simp only [isapnp_write_data]
        rw [if_neg h00, if_neg h02, if_neg h03, if_neg h06, if_neg h07, if_neg h30,
            if_neg h31, if_pos hv1]
        cases hf : findConfigCard dev with
        | none => rfl
        | some ci0 =>
          dsimp only
          cases hc0 : dev.first_card.get? ci0 with
          | none => rfl
          | some c0 => rfl
      rw [ldAt_first_card_eq _ dev ci li hfc]
    by_cases hv2 : (0x38 ≤ dev.reg ∧ dev.reg ≤ 0x3f) ∨ (0xf0 ≤ dev.reg ∧ dev.reg ≤ 0xfe)
    · have hfc : (isapnp_write_data dev val).1.first_card = dev.first_card := by
        simp only [isapnp_write_data]
        rw [if_neg h00, if_neg h02, if_neg h03, if_neg h06, if_neg h07, if_neg h30,
            if_neg h31, if_neg hv1, if_pos hv2]
        cases hcur : dev.current_ld with
        | none => rfl
        | some p =>
          obtain ⟨ci0, li0⟩ := p
          dsimp only
          cases hc0 : dev.first_card.get? ci0 with
          | none => rfl
          | some c0 =>
            dsimp only
            cases hl0 : c0.first_ld.get? li0 with
            | none => rfl
            | some l0 => rfl
      rw [ldAt_first_card_eq _ dev ci li hfc]
    by_cases h40 : 0x40 ≤ dev.reg
    · cases hcur : dev.current_ld with
      | none =>
        have hd : isapnp_write_data dev val = (dev, []) := by
          simp only [isapnp_write_data]
          rw [if_neg h00, if_neg h02, if_neg h03, if_neg h06, if_neg h07, if_neg h30,
              if_neg h31, if_neg hv1, if_neg hv2, if_pos h40, hcur]
        rw [hd]
      | some p =>
        obtain ⟨ci0, li0⟩ := p
        cases hc0 : dev.first_card.get? ci0 with
        | none =>
          have hd : isapnp_write_data dev val = (dev, []) := by
            simp only [isapnp_write_data]
            rw [if_neg h00, if_neg h02, if_neg h03, if_neg h06, if_neg h07, if_neg h30,
                if_neg h31, if_neg hv1, if_neg hv2, if_pos h40, hcur]
            dsimp only
            rw [hc0]
          rw [hd]
        | some c0 =>
          cases hl0 : c0.first_ld.get? li0 with
          | none =>
            have hd : isapnp_write_data dev val = (dev, []) := by
              simp only [isapnp_write_data]
              rw [if_neg h00, if_neg h02, if_neg h03, if_neg h06, if_neg h07, if_neg h30,
                  if_neg h31, if_neg hv1, if_neg hv2, if_pos h40, hcur]
              dsimp only
              rw [hc0]
              dsimp only
              rw [hl0]
            rw [hd]
          | some l0 =>
            have hd : (isapnp_write_data dev val).1 =
                modifyLd dev ci0 li0 (fun _ =>
                  { l0 with regs := (Function.update l0.regs dev.reg
                      (if dev.reg = 0x42 ∨ dev.reg = 0x4a ∨ dev.reg = 0x52 ∨ dev.reg = 0x5a ∨
                          dev.reg = 0x7a ∨ dev.reg = 0x84 ∨ dev.reg = 0x94 ∨ dev.reg = 0xa4 then
                         ((val % 256) &&& 0xfe) ||| (l0.regs dev.reg &&& 0x01)
                       else val % 256)) }) := by
              simp only [isapnp_write_data]
              rw [if_neg h00, if_neg h02, if_neg h03, if_neg h06, if_neg h07, if_neg h30,
                  if_neg h31, if_neg hv1, if_neg hv2, if_pos h40, hcur]
              dsimp only
              rw [hc0]
              dsimp only
              rw [hl0]
            rw [hd]
            refine ldAt_modifyLd_low_bit dev ci0 li0 _ r ?_ ci li
            intro l hl
            have hll : l = l0 := by
              unfold ldAt at hl
              rw [hc0] at hl
              simp only [Option.some_bind] at hl
              rw [hl0] at hl
              exact (Option.some.inj hl).symm
            subst hll
            dsimp only
            by_cases hdr : dev.reg = r
            · rw [hdr, Function.update_same, if_pos hrl]
              exact splice_keeps_low_bit _ _
            · rw [Function.update_noteq (Ne.symm hdr)]
    · have hd : isapnp_write_data dev val = (dev, []) := by
        simp only [isapnp_write_data]
        rw [if_neg h00, if_neg h02, if_neg h03, if_neg h06, if_neg h07, if_neg h30,
            if_neg h31, if_neg hv1, if_neg hv2, if_neg h40]
      rw [hd]

/-- Witness for C8: writing 0xFF to register 0x42 of a device whose
register 0x42 holds 0 stores 0xFE (low bit kept), and the low bit is
unchanged by the write. -/
theorem mem_length_low_bit_invariant_witness :
    (ldAt (isapnp_write_data (fix2_dev 0x42) 0xFF).1 0 0).map (fun l => l.regs 0x42) =
      some 0xFE ∧
    (ldAt (isapnp_write_data (fix2_dev 0x42) 0xFF).1 0 0).map (fun l => l.regs 0x42 &&& 1) =
      (ldAt (fix2_dev 0x42) 0 0).map (fun l => l.regs 0x42 &&& 1) := by
  have hA := (mem_length_low_bit_invariant (fix2_dev 0x42) 0xFF).1 0 0 fix2_card ld0
    (Or.inl rfl) rfl rfl rfl
  have hB := (mem_length_low_bit_invariant (fix2_dev 0x42) 0xFF).2 0x42 (by decide)
    (Or.inl rfl) 0 0
  constructor
  · rw [hA.1]
    simp only [Option.map_some']
    decide
  · exact hB

end ISAPnP
